import Mathlib

/-!
Shallow embedding of the bell-app interactive core (src/src/App.tsx):
the `BellAudio` player (rate-limited playback with a synthesized fallback
buffer), the `MotionDetector` shake detector, and the swing/ripple
animation helpers, together with theorems about the specified properties.

Numbers that the TypeScript source manipulates exactly (accelerations,
thresholds, intensities, volumes) are modelled as rationals; timestamps
(`Date.now()`) as integers; the synthesized audio samples (which use
`Math.sin` / `Math.exp`) as reals.
-/

namespace BellApp

/-- Model of a Web Audio `AudioBuffer`: channel count, frame length,
sample rate and the sample data of channel 0. -/
structure AudioBufferModel where
  numChannels : ℕ
  length : ℕ
  sampleRate : ℕ
  data : ℕ → ℝ

/-- The `harmonics` table of `generateFallbackSound`:
`[1, 1.5, 2, 2.5, 3.2, 4.1]`. -/
def harmonics : List ℚ := [1, 3/2, 2, 5/2, 16/5, 41/10]

/-- The `harmonicAmps` table of `generateFallbackSound`:
`[1.0, 0.6, 0.4, 0.3, 0.2, 0.1]`. -/
def harmonicAmps : List ℚ := [1, 3/5, 2/5, 3/10, 1/5, 1/10]

/-- `fundamentalFreq = 520` in `generateFallbackSound`. -/
def fundamentalFreq : ℚ := 520

/-- Sum of the decaying sinusoidal harmonics at sample index `i`:
the `harmonics.forEach` loop body accumulated into `sample`. -/
noncomputable def harmonicSum (sampleRate : ℕ) (i : ℕ) : ℝ :=
  let t : ℝ := (i : ℝ) / (sampleRate : ℝ)
  (List.range harmonics.length).foldl
    (fun acc idx =>
      let freq : ℝ := (fundamentalFreq : ℝ) * ((harmonics.getD idx 0 : ℚ) : ℝ)
      let decay : ℝ := Real.exp (-3 * t * (1 + (idx : ℝ) * (3/10)))
      acc + Real.sin (2 * Real.pi * freq * t) * ((harmonicAmps.getD idx 0 : ℚ) : ℝ) * decay)
    0

/-- The `shimmer` overtone term at sample index `i`:
`sin(2*pi*3000*t) * 0.15 * exp(-8*t)`. -/
noncomputable def shimmerTerm (sampleRate : ℕ) (i : ℕ) : ℝ :=
  let t : ℝ := (i : ℝ) / (sampleRate : ℝ)
  Real.sin (2 * Real.pi * 3000 * t) * (3/20) * Real.exp (-8 * t)

/-- The exponential-decay `envelope = exp(-2*t)` at sample index `i`. -/
noncomputable def envelopeTerm (sampleRate : ℕ) (i : ℕ) : ℝ :=
  Real.exp (-2 * ((i : ℝ) / (sampleRate : ℝ)))

/-- Sample `data[i]` written by the synthesis loop of
`generateFallbackSound`: `(harmonic sum + shimmer) * envelope * 0.3`. -/
noncomputable def fallbackSample (sampleRate : ℕ) (i : ℕ) : ℝ :=
  (harmonicSum sampleRate i + shimmerTerm sampleRate i) * envelopeTerm sampleRate i * (3/10)

/-- `BellAudio.generateFallbackSound`: a mono buffer of
`duration = 2.5` seconds, i.e. `length = sampleRate * 2.5` frames
(`sampleRate * 5 / 2`, truncated as the Web IDL integer conversion of
`createBuffer` does), filled with `fallbackSample`. -/
noncomputable def generateFallbackSound (sampleRate : ℕ) : AudioBufferModel :=
  { numChannels := 1
    length := sampleRate * 5 / 2
    sampleRate := sampleRate
    data := fallbackSample sampleRate }

/-- `BellAudio.loadSound`: `fetched` is the decoded asset when the
fetch/decode of `/bell.mp3` succeeded, `none` when it threw; on failure
the buffer is replaced by the synthesized fallback. Returns the value of
`this.buffer` after the call. -/
noncomputable def loadSound (fetched : Option AudioBufferModel) (sampleRate : ℕ) :
    Option AudioBufferModel :=
  match fetched with
  | some b => some b
  | none => some (generateFallbackSound sampleRate)

/-- `BellAudio.minInterval = 100` (minimum ms between rings). -/
def minInterval : ℤ := 100

/-- Mutable state of a `BellAudio` instance: the `loaded` flag, the
decoded or synthesized `buffer`, whether `context` is non-null, and
`lastPlayTime`. -/
structure BellState where
  loaded : Bool
  buffer : Option AudioBufferModel
  hasContext : Bool
  lastPlayTime : ℤ

/-- The volume computed in `BellAudio.play`:
`Math.min(0.3 + intensity * 0.7, 1.0)`. -/
def bellVolume (intensity : ℚ) : ℚ :=
  min (3/10 + intensity * (7/10)) 1

/-- `BellAudio.play(intensity)` at wall-clock time `now`: returns the
updated state and, when a playback is actually started, the buffer fed to
the source node together with the gain value. Mirrors the guards of the
source: return early unless `loaded`, `buffer` and `context` are all
set, and drop the call when fewer than `minInterval` ms passed since
`lastPlayTime`. -/
def play (st : BellState) (now : ℤ) (intensity : ℚ) :
    BellState × Option (AudioBufferModel × ℚ) :=
  match st.buffer with
  | none => (st, none)
  | some b =>
    if st.loaded = false ∨ st.hasContext = false then (st, none)
    else if now - st.lastPlayTime < minInterval then (st, none)
    else ({ st with lastPlayTime := now }, some (b, bellVolume intensity))

/-- Run a sequence of `play` calls, given as (call time, intensity)
pairs; returns the final state and the start times of the playbacks that
were actually started. -/
def runPlay (st : BellState) : List (ℤ × ℚ) → BellState × List ℤ
  | [] => (st, [])
  | c :: rest =>
    let step := play st c.1 c.2
    let res := runPlay step.1 rest
    (res.1, if (step.2).isSome then c.1 :: res.2 else res.2)

/-- Mutable state of a `MotionDetector` instance, with the field
initializers of the class as defaults. `listening` records whether
`start()` has registered the `devicemotion` listener. -/
structure MotionDetector where
  lastX : ℚ := 0
  lastY : ℚ := 0
  lastZ : ℚ := 0
  threshold : ℚ := 10
  lastShakeTime : ℤ := 0
  shakeInterval : ℤ := 100
  permissionGranted : Bool := false
  listening : Bool := false

/-- A freshly constructed `MotionDetector` (all fields at their class
initializers). -/
def newMotionDetector : MotionDetector := {}

/-- The `devicemotion` handler registered by `MotionDetector.start`:
computes `delta = |x-lastX| + |y-lastY| + |z-lastZ|`, updates the
last-known values, and when `delta > threshold` and
`now - lastShakeTime > shakeInterval` records the shake time and fires
the callback with `intensity = min(delta/50, 1)`. Returns the updated
detector and the intensity passed to the callback, if any. -/
def handleMotion (d : MotionDetector) (x y z : ℚ) (now : ℤ) :
    MotionDetector × Option ℚ :=
  let delta := |x - d.lastX| + |y - d.lastY| + |z - d.lastZ|
  let d1 := { d with lastX := x, lastY := y, lastZ := z }
  if delta > d.threshold ∧ now - d.lastShakeTime > d.shakeInterval then
    ({ d1 with lastShakeTime := now }, some (min (delta / 50) 1))
  else
    (d1, none)

/-- `MotionDetector.start()`: returns early when permission was not
granted, otherwise registers the `devicemotion` listener. -/
def MotionDetector.start (d : MotionDetector) : MotionDetector :=
  if d.permissionGranted = false then d else { d with listening := true }

/-- Delivery of one `devicemotion` event: the handler only runs if the
listener was registered. -/
def processSample (d : MotionDetector) (x y z : ℚ) (now : ℤ) :
    MotionDetector × Option ℚ :=
  if d.listening = false then (d, none) else handleMotion d x y z now

/-- Run a sequence of motion samples `(x, y, z, now)` through the
detector; returns the final detector and the intensities with which the
callback fired, in order. -/
def runDetector (d : MotionDetector) : List (ℚ × ℚ × ℚ × ℤ) → MotionDetector × List ℚ
  | [] => (d, [])
  | s :: rest =>
    let step := processSample d s.1 s.2.1 s.2.2.1 s.2.2.2
    let res := runDetector step.1 rest
    (res.1, match step.2 with
      | some v => v :: res.2
      | none => res.2)

/-- The swing class chosen by `swingBell` for a given intensity. -/
def swingClass (intensity : ℚ) : String :=
  if intensity > 7/10 then "swing-intense"
  else if intensity > 1/2 then "swing-heavy"
  else if intensity > 3/10 then "swing-medium"
  else "swing-light"

/-- The `setTimeout` delay after which `swingBell` removes the class. -/
def swingDuration : ℕ := 1000

/-- The `setTimeout` delay after which `createRipple` removes the token. -/
def rippleLifetime : ℕ := 1000

/-- `createRipple` at time `now`: the token id is `Date.now()`, it is
appended to the active list, and its removal is scheduled
`rippleLifetime` ms later. Returns the new active list and the scheduled
expiry time. -/
def createRipple (now : ℕ) (active : List ℕ) : List ℕ × ℕ :=
  (active ++ [now], now + rippleLifetime)

/-- The expiry callback of `createRipple`: filters the token with the
given id out of the active list. -/
def expireRipple (rid : ℕ) (active : List ℕ) : List ℕ :=
  active.filter (fun r => r ≠ rid)

/-- C1 (counterexample): a sample arriving exactly 100 ms after the
previous fire, with delta = 100 far above the threshold, does NOT fire
the callback — the source tests `now - lastShakeTime > shakeInterval`
strictly, so the claim's boundary case fails. -/
theorem c1_counterexample :
    |100 - newMotionDetector.lastX| + |0 - newMotionDetector.lastY| +
        |0 - newMotionDetector.lastZ| > newMotionDetector.threshold ∧
    (100 : ℤ) - newMotionDetector.lastShakeTime = 100 ∧
    (handleMotion newMotionDetector 100 0 0 100).2 = none := by
  refine ⟨by norm_num [newMotionDetector], by norm_num [newMotionDetector], ?_⟩
  simp [handleMotion, newMotionDetector]

/-- C1 (amended): on each motion sample the callback fires iff
`delta = |x-lastX| + |y-lastY| + |z-lastZ|` exceeds the threshold
(default 10) AND STRICTLY MORE than `shakeInterval` (100 ms, default)
elapsed since the previous fire; at exactly 100 ms it does not fire. -/
theorem c1_fires_iff (d : MotionDetector) (x y z : ℚ) (now : ℤ) :
    (((handleMotion d x y z now).2.isSome = true) ↔
      (|x - d.lastX| + |y - d.lastY| + |z - d.lastZ| > d.threshold ∧
        now - d.lastShakeTime > d.shakeInterval)) ∧
    newMotionDetector.threshold = 10 ∧ newMotionDetector.shakeInterval = 100 := by
  refine ⟨?_, rfl, rfl⟩
  by_cases h : (|x - d.lastX| + |y - d.lastY| + |z - d.lastZ| > d.threshold ∧
      now - d.lastShakeTime > d.shakeInterval)
  · simp [handleMotion, h]
  · simp [handleMotion, h]

/-- C2: whenever the callback fires, the intensity it receives equals
`min(delta / 50, 1)` and lies in `[0, 1]`. -/
theorem c2_intensity_clamped (d : MotionDetector) (x y z : ℚ) (now : ℤ) (v : ℚ)
    (h : (handleMotion d x y z now).2 = some v) :
    v = min ((|x - d.lastX| + |y - d.lastY| + |z - d.lastZ|) / 50) 1 ∧
    0 ≤ v ∧ v ≤ 1 := by
  simp only [handleMotion] at h
  split at h
  · rw [Option.some_inj] at h
    subst h
    refine ⟨rfl, le_min (by positivity) (by norm_num), min_le_right _ _⟩
  · exact absurd h (by simp)

/-- C2 (witness): a sample with `delta = 500` yields intensity exactly 1. -/
theorem c2_intensity_clamped_witness :
    (1 : ℚ) = min ((|500 - newMotionDetector.lastX| + |0 - newMotionDetector.lastY| +
        |0 - newMotionDetector.lastZ|) / 50) 1 ∧
    0 ≤ (1 : ℚ) ∧ (1 : ℚ) ≤ 1 :=
  c2_intensity_clamped newMotionDetector 500 0 0 200 1 (by
    simp [handleMotion, newMotionDetector]
    norm_num)

/-- C8: on every motion sample the last-known values are overwritten
with the sample's values unconditionally, while `lastShakeTime` is left
unchanged when the callback does not fire and is set to the sample time
when it does. -/
theorem c8_unconditional_update (d : MotionDetector) (x y z : ℚ) (now : ℤ) :
    (handleMotion d x y z now).1.lastX = x ∧
    (handleMotion d x y z now).1.lastY = y ∧
    (handleMotion d x y z now).1.lastZ = z ∧
    ((handleMotion d x y z now).2 = none →
      (handleMotion d x y z now).1.lastShakeTime = d.lastShakeTime) ∧
    ((handleMotion d x y z now).2 ≠ none →
      (handleMotion d x y z now).1.lastShakeTime = now) := by
  simp only [handleMotion]
  split
  · exact ⟨rfl, rfl, rfl, by simp, fun _ => rfl⟩
  · exact ⟨rfl, rfl, rfl, fun _ => rfl, by simp⟩

/-- C8 (witness): on a non-firing sample (delta = 1 below threshold) the
last-known values are updated and `lastShakeTime` stays put. -/
theorem c8_unconditional_update_witness :
    (handleMotion newMotionDetector 1 0 0 200).1.lastX = 1 ∧
    (handleMotion newMotionDetector 1 0 0 200).1.lastShakeTime =
      newMotionDetector.lastShakeTime :=
  ⟨(c8_unconditional_update newMotionDetector 1 0 0 200).1,
    (c8_unconditional_update newMotionDetector 1 0 0 200).2.2.2.1 (by
      simp [handleMotion, newMotionDetector])⟩

/-- C10 (implicit): with the default threshold 10, every intensity the
motion path delivers to the callback is strictly greater than 1/5 = 0.2
and at most 1: the callback only fires when `delta > 10`, and then
`min(delta/50, 1) > 10/50 = 1/5`. -/
theorem c10_motion_intensity_above (d : MotionDetector) (x y z : ℚ) (now : ℤ) (v : ℚ)
    (hthr : d.threshold = 10) (h : (handleMotion d x y z now).2 = some v) :
    1/5 < v ∧ v ≤ 1 := by
  simp only [handleMotion] at h
  split at h
  case isTrue hc =>
    rw [Option.some_inj] at h
    subst h
    refine ⟨lt_min (by linarith [hc.1, hthr ▸ hc.1]) (by norm_num), min_le_right _ _⟩
  case isFalse => exact absurd h (by simp)

/-- C10 (witness): a firing sample with delta = 11 yields an intensity
in (1/5, 1]. -/
theorem c10_motion_intensity_above_witness :
    1/5 < (11/50 : ℚ) ∧ (11/50 : ℚ) ≤ 1 :=
  c10_motion_intensity_above newMotionDetector 11 0 0 200 (11/50) rfl (by
    simp [handleMotion, newMotionDetector]
    norm_num)

/-- Two playback start times separated by at least `minInterval` ms. -/
def spacedBy : ℤ → ℤ → Prop := fun p q => p + 100 ≤ q

instance : IsTrans ℤ spacedBy :=
  ⟨fun a b c hab hbc => by unfold spacedBy at *; omega⟩

/-- A concrete decoded buffer used to instantiate `BellState`. -/
def dummyBuffer : AudioBufferModel :=
  { numChannels := 1, length := 1, sampleRate := 1, data := fun _ => 0 }

/-- A fully initialized `BellAudio` state: loaded, with a buffer and a
context, `lastPlayTime = 0` as the field initializer sets it. -/
def st0 : BellState :=
  { loaded := true, buffer := some dummyBuffer, hasContext := true, lastPlayTime := 0 }

/-- Every playback started by a run of `play` calls comes at least
`minInterval` ms after the preceding one (with `lastPlayTime` of the
starting state as the zeroth reference point). -/
theorem runPlay_spacing (ts : List (ℤ × ℚ)) : ∀ st : BellState,
    List.Chain' spacedBy (st.lastPlayTime :: (runPlay st ts).2) := by
  induction ts with
  | nil => intro st; simp [runPlay]
  | cons c rest ih =>
    intro st
    simp only [runPlay]
    rcases hb : st.buffer with _ | b
    · simpa [play, hb] using ih st
    · by_cases hl : st.loaded = false ∨ st.hasContext = false
      · simpa [play, hb, hl] using ih st
      · by_cases ht : c.1 - st.lastPlayTime < minInterval
        · simpa [play, hb, hl, ht] using ih st
        · have h2 := ih { st with lastPlayTime := c.1 }
          have hgap : st.lastPlayTime + 100 ≤ c.1 := by
            unfold minInterval at ht; omega
          simp [play, hb, hl, ht, List.chain'_cons]
          exact ⟨hgap, by simpa [hb] using h2⟩

/-- C3 (counterexample): three calls at times 100, 120 and 150 from a
fresh loaded state: only the call at 100 starts a playback, so the pair
(120, 150) — 30 ms apart, i.e. within `minInterval` of each other —
starts zero playbacks, not exactly one. -/
theorem c3_counterexample :
    (150 : ℤ) - 120 < minInterval ∧
    (runPlay st0 [(100, 1), (120, 1), (150, 1)]).2 = [100] := by
  constructor
  · decide
  · rfl

/-- C3 (amended): any two playbacks started by a run of `play` calls
are at least `minInterval` (100 ms) apart; and for a pair of calls less
than 100 ms apart whose first call is accepted by the rate limiter
(loaded state, ≥ 100 ms after `lastPlayTime`), exactly the first call
starts a playback and the second is ignored. -/
theorem c3_rate_limit (st : BellState) (ts : List (ℤ × ℚ)) :
    List.Pairwise spacedBy (runPlay st ts).2 ∧
    (∀ t1 t2 : ℤ, ∀ j1 j2 : ℚ,
      st.loaded = true → st.buffer.isSome = true → st.hasContext = true →
      100 ≤ t1 - st.lastPlayTime → |t2 - t1| < 100 →
      (runPlay st [(t1, j1), (t2, j2)]).2 = [t1]) := by
  constructor
  · exact List.chain'_iff_pairwise.mp (runPlay_spacing ts st).tail
  · intro t1 t2 j1 j2 hload hsome hctx hgap habs
    rcases hbuf : st.buffer with _ | b
    · rw [hbuf] at hsome; simp at hsome
    · have ht1 : ¬ (t1 - st.lastPlayTime < minInterval) := by
        unfold minInterval; omega
      have habs2 := le_abs_self (t2 - t1)
      have ht2 : t2 - t1 < minInterval := by unfold minInterval; omega
      simp [runPlay, play, hbuf, hload, hctx, ht1, ht2]

/-- C3 (witness): from the fresh loaded state, calls at 300 and 350 ms
(50 ms apart) start exactly one playback, at 300; the playback times of
that run are pairwise at least 100 ms apart. -/
theorem c3_rate_limit_witness :
    List.Pairwise spacedBy (runPlay st0 [(300, 1), (350, 1)]).2 ∧
    (runPlay st0 [(300, 1), (350, 1)]).2 = [300] :=
  ⟨(c3_rate_limit st0 [(300, 1), (350, 1)]).1,
    (c3_rate_limit st0 [(300, 1), (350, 1)]).2 300 350 1 1
      rfl rfl rfl (by decide) (by decide)⟩

/-- C4: when the fetch/decode of the sound asset fails, `loadSound`
installs the synthesized fallback: a mono buffer of `sampleRate * 2.5`
frames (non-empty for any positive sample rate) whose samples are the
sum of the decaying harmonics plus the shimmer overtone under the
exponential-decay envelope; and a subsequent eligible `play` call feeds
exactly this buffer to the source node. -/
theorem c4_fallback_buffer (sr : ℕ) (hsr : 0 < sr) (now lp : ℤ)
    (hgap : 100 ≤ now - lp) (i : ℚ) :
    loadSound none sr = some (generateFallbackSound sr) ∧
    (generateFallbackSound sr).numChannels = 1 ∧
    (generateFallbackSound sr).length = sr * 5 / 2 ∧
    0 < (generateFallbackSound sr).length ∧
    (∀ j, (generateFallbackSound sr).data j =
      (harmonicSum sr j + shimmerTerm sr j) * envelopeTerm sr j * (3/10)) ∧
    (play { loaded := true, buffer := some (generateFallbackSound sr),
            hasContext := true, lastPlayTime := lp } now i).2 =
      some (generateFallbackSound sr, bellVolume i) := by
  refine ⟨rfl, rfl, rfl, ?_, fun j => rfl, ?_⟩
  · show 0 < sr * 5 / 2
    exact Nat.div_pos (by omega) (by norm_num)
  · have hne : ¬ (now - lp < minInterval) := by unfold minInterval; omega
    simp [play, hne]

/-- C4 (witness): at the common 44100 Hz sample rate the fallback buffer
has 110250 frames and is handed to `play`. -/
theorem c4_fallback_buffer_witness :
    loadSound none 44100 = some (generateFallbackSound 44100) ∧
    (generateFallbackSound 44100).numChannels = 1 ∧
    (generateFallbackSound 44100).length = 44100 * 5 / 2 ∧
    0 < (generateFallbackSound 44100).length ∧
    (∀ j, (generateFallbackSound 44100).data j =
      (harmonicSum 44100 j + shimmerTerm 44100 j) * envelopeTerm 44100 j * (3/10)) ∧
    (play { loaded := true, buffer := some (generateFallbackSound 44100),
            hasContext := true, lastPlayTime := 0 } 1000 1).2 =
      some (generateFallbackSound 44100, bellVolume 1) :=
  c4_fallback_buffer 44100 (by norm_num) 1000 0 (by norm_num) 1

/-- C5: the swing class is selected by the 0.3/0.5/0.7 thresholds —
0.2 maps to light, 0.4 to medium, 0.6 to heavy, 0.9 to intense — and
`swingBell` schedules the class removal 1000 ms later. -/
theorem c5_swing_class (i : ℚ) :
    swingClass (1/5) = "swing-light" ∧
    swingClass (2/5) = "swing-medium" ∧
    swingClass (3/5) = "swing-heavy" ∧
    swingClass (9/10) = "swing-intense" ∧
    swingDuration = 1000 ∧
    (7/10 < i → swingClass i = "swing-intense") ∧
    (1/2 < i → i ≤ 7/10 → swingClass i = "swing-heavy") ∧
    (3/10 < i → i ≤ 1/2 → swingClass i = "swing-medium") ∧
    (i ≤ 3/10 → swingClass i = "swing-light") := by
  refine ⟨by norm_num [swingClass], by norm_num [swingClass], by norm_num [swingClass],
    by norm_num [swingClass], rfl, ?_, ?_, ?_, ?_⟩
  · intro h
    unfold swingClass
    rw [if_pos h]
  · intro h1 h2
    unfold swingClass
    rw [if_neg (by linarith), if_pos (by linarith)]
  · intro h1 h2
    unfold swingClass
    rw [if_neg (by linarith), if_neg (by linarith), if_pos (by linarith)]
  · intro h
    unfold swingClass
    rw [if_neg (by linarith), if_neg (by linarith), if_neg (by linarith)]

/-- C5 (witness): intensity 0.9 exceeds 0.7 and gets the intense class. -/
theorem c5_swing_class_witness :
    swingClass (9/10) = "swing-intense" :=
  (c5_swing_class (9/10)).2.2.2.2.2.1 (by norm_num)

/-- C6: a ripple token is in the active set immediately after the
trigger, its removal is scheduled exactly `rippleLifetime = 1000` ms
after the trigger, and running the expiry removes it from the set. -/
theorem c6_ripple_lifecycle (now : ℕ) (active : List ℕ) :
    now ∈ (createRipple now active).1 ∧
    (createRipple now active).2 = now + 1000 ∧
    rippleLifetime = 1000 ∧
    now ∉ expireRipple now (createRipple now active).1 := by
  refine ⟨?_, rfl, rfl, ?_⟩
  · simp [createRipple]
  · simp [createRipple, expireRipple]

/-- A detector whose listener was never registered ignores every
sample. -/
theorem runDetector_not_listening (samples : List (ℚ × ℚ × ℚ × ℤ)) :
    ∀ d : MotionDetector, d.listening = false → runDetector d samples = (d, []) := by
  induction samples with
  | nil => intro d _; rfl
  | cons s rest ih =>
    intro d hd
    simp [runDetector, processSample, hd, ih d hd]

/-- C7: without permission, `start()` is a no-op — the detector is
unchanged, no listener is registered, and no sequence of motion samples
ever fires the callback. -/
theorem c7_no_permission (d : MotionDetector) (samples : List (ℚ × ℚ × ℚ × ℤ))
    (hperm : d.permissionGranted = false) (hlisten : d.listening = false) :
    d.start = d ∧ (d.start).listening = false ∧
    (runDetector d.start samples).2 = [] := by
  have hs : d.start = d := by simp [MotionDetector.start, hperm]
  refine ⟨hs, by rw [hs]; exact hlisten, ?_⟩
  rw [hs, runDetector_not_listening samples d hlisten]

/-- C7 (witness): a fresh detector (permission not granted) started and
fed a large shake sample fires nothing. -/
theorem c7_no_permission_witness :
    newMotionDetector.start = newMotionDetector ∧
    (newMotionDetector.start).listening = false ∧
    (runDetector newMotionDetector.start [(100, 0, 0, 200)]).2 = [] :=
  c7_no_permission newMotionDetector [(100, 0, 0, 200)] rfl rfl

/-- C9: the playback gain is `min(0.3 + 0.7 * intensity, 1.0)`: it never
exceeds 1, equals the linear value `0.3 + 0.7 * intensity` on `[0, 1]`
(so 0.3 at intensity 0 and 1.0 at intensity 1), and is exactly the gain
`play` sets on every started playback. -/
theorem c9_volume_linear (i : ℚ) :
    bellVolume i ≤ 1 ∧
    (0 ≤ i → i ≤ 1 → bellVolume i = 3/10 + i * (7/10)) ∧
    bellVolume 0 = 3/10 ∧
    bellVolume 1 = 1 ∧
    (∀ st now b v, (play st now i).2 = some (b, v) → v = bellVolume i) := by
  refine ⟨min_le_right _ _, ?_, by norm_num [bellVolume], by norm_num [bellVolume], ?_⟩
  · intro h0 h1
    unfold bellVolume
    exact min_eq_left (by linarith)
  · intro st now b v h
    rcases hbuf : st.buffer with _ | bb
    · simp [play, hbuf] at h
    · simp only [play, hbuf] at h
      split at h
      · simp at h
      · split at h
        · simp at h
        · rw [Option.some_inj] at h
          have h2 := congrArg Prod.snd h
          simpa using h2.symm

/-- C9 (witness): at intensity 1/2 the gain is 0.3 + 0.35 = 0.65, and a
started playback from the loaded state carries exactly that gain. -/
theorem c9_volume_linear_witness :
    bellVolume (1/2) = 3/10 + (1/2) * (7/10) ∧
    (13/20 : ℚ) = bellVolume (1/2) :=
  ⟨(c9_volume_linear (1/2)).2.1 (by norm_num) (by norm_num),
    (c9_volume_linear (1/2)).2.2.2.2 st0 300 dummyBuffer (13/20) (by
      norm_num [play, st0, minInterval, bellVolume])⟩

end BellApp
